import Mathlib

/-!
Verification of the `RecordingSubscriptionDescriptorPoller` listing poller of
the aeron archive client (`aeron-archive/src/main/cpp/client/
RecordingSubscriptionDescriptorPoller.h`), a shallow embedding in Lean 4.

The header gives the inline member functions `poll`, `controlSessionId`,
`isDispatchComplete`, `remainingSubscriptionCount` and `reset` together with
the member initializers; those are translated directly.  The body of
`onFragment`, the constructor body, and the transport's `controlledPoll` are
declared but not defined in the available sources, so they are modelled from
the specification, as marked in their doc comments.
-/

namespace AeronArchive

/-- A decoded recording-subscription-descriptor listing item, carrying the
wire fields relevant to dispatch: the `(controlSessionId, correlationId)`
header pair and the item body fields `subscriptionId`, `streamId` and
`strippedChannel`. -/
structure RecordingSubscriptionDescriptor where
  controlSessionId : Int
  correlationId : Int
  subscriptionId : Int
  streamId : Int
  strippedChannel : String
deriving DecidableEq

/-- One invocation of a `recording_subscription_descriptor_consumer_t`
callback: the five arguments the consumer receives. -/
structure ConsumerInvocation where
  controlSessionId : Int
  correlationId : Int
  subscriptionId : Int
  streamId : Int
  strippedChannel : String
deriving DecidableEq

/-- The arguments the consumer receives for a decoded item, as decoded from
the fragment. -/
def consumerArgs (f : RecordingSubscriptionDescriptor) : ConsumerInvocation :=
  { controlSessionId := f.controlSessionId
    correlationId := f.correlationId
    subscriptionId := f.subscriptionId
    streamId := f.streamId
    strippedChannel := f.strippedChannel }

/-- The four-way flow-control decision returned per fragment to the
transport (`ControlledPollAction` in `ControlledFragmentAssembler.h`). -/
inductive ControlledPollAction where
  | ABORT
  | BREAK
  | COMMIT
  | CONTINUE
deriving DecidableEq

/-- The state of a `RecordingSubscriptionDescriptorPoller`.  The consumer
capability (`recording_subscription_descriptor_consumer_t`, a closure in the
source) is modelled as an opaque numeric tag, `Option Nat`, where `none`
stands for the `nullptr` initializer of `m_consumer`.  The transport
subscription, fragment assembler and error handler members carry no state
observable by the claims and are not represented. -/
structure RecordingSubscriptionDescriptorPoller where
  controlSessionId : Int
  fragmentLimit : Nat
  consumer : Option Nat
  correlationId : Int
  remainingSubscriptionCount : Int
  isDispatchComplete : Bool
deriving DecidableEq

namespace RecordingSubscriptionDescriptorPoller

/-- Modelled from the spec: the constructor body of
`RecordingSubscriptionDescriptorPoller` is declared in the header but defined
in a source file not available here.  The header declares
`const std::int64_t m_controlSessionId` and `const int m_fragmentLimit`, so
the constructor stores its `controlSessionId` and `fragmentLimit` arguments
into them; the remaining members keep their in-class initializers
`m_consumer = nullptr`, `m_correlationId = -1`,
`m_remainingSubscriptionCount = 0`, `m_isDispatchComplete = false`. -/
def construct (controlSessionId : Int) (fragmentLimit : Nat) :
    RecordingSubscriptionDescriptorPoller :=
  { controlSessionId := controlSessionId
    fragmentLimit := fragmentLimit
    consumer := none
    correlationId := -1
    remainingSubscriptionCount := 0
    isDispatchComplete := false }

/-- The default of the constructor's `fragmentLimit` parameter:
`int fragmentLimit = 10` in the header. -/
def defaultFragmentLimit : Nat := 10

/-- Construction with the defaulted `fragmentLimit` argument. -/
def constructDefault (controlSessionId : Int) :
    RecordingSubscriptionDescriptorPoller :=
  construct controlSessionId defaultFragmentLimit

/-- `RecordingSubscriptionDescriptorPoller::reset` (header, lines 70-79):
stores the correlation id, the subscription count and the consumer, and
clears `m_isDispatchComplete`. -/
def reset (s : RecordingSubscriptionDescriptorPoller) (correlationId : Int)
    (subscriptionCount : Int) (consumer : Nat) :
    RecordingSubscriptionDescriptorPoller :=
  { s with
    correlationId := correlationId
    remainingSubscriptionCount := subscriptionCount
    consumer := some consumer
    isDispatchComplete := false }

/-- Whether a fragment's `(controlSessionId, correlationId)` header pair
matches a poller's bound control session and currently bound listing
correlation. -/
def matchesListing (controlSessionId correlationId : Int)
    (f : RecordingSubscriptionDescriptor) : Bool :=
  f.controlSessionId == controlSessionId && f.correlationId == correlationId

/-- Modelled from the spec: the body of
`RecordingSubscriptionDescriptorPoller::onFragment` is declared in the header
(line 81) but defined in a source file not available here.  Per the spec
(sections 4.3, 4.4, 7 and 8): a listing-item fragment whose
`controlSessionId` matches the poller's bound session and whose
`correlationId` matches the currently bound listing is decoded, the consumer
is invoked once with the item's fields, and the remaining count is
decremented; when it reaches 0 the listing is complete
(`isDispatchComplete = true`) and the poll stops at the logical unit
boundary (`COMMIT`).  A fragment whose pair does not match is consumed with
no consumer invocation and no state change (`CONTINUE`).  An item beyond the
declared count is a protocol violation reported to the error handler; the
fragment is still consumed, with no consumer invocation and no decrement
below zero.  Returns the successor state, the consumer invocations made and
the flow-control action. -/
def onFragment (s : RecordingSubscriptionDescriptorPoller)
    (f : RecordingSubscriptionDescriptor) :
    RecordingSubscriptionDescriptorPoller × List ConsumerInvocation ×
      ControlledPollAction :=
  if matchesListing s.controlSessionId s.correlationId f then
    if 0 < s.remainingSubscriptionCount then
      if s.remainingSubscriptionCount - 1 = 0 then
        ({ s with
            remainingSubscriptionCount := s.remainingSubscriptionCount - 1
            isDispatchComplete := true },
          [consumerArgs f], ControlledPollAction.COMMIT)
      else
        ({ s with
            remainingSubscriptionCount := s.remainingSubscriptionCount - 1 },
          [consumerArgs f], ControlledPollAction.CONTINUE)
    else
      (s, [], ControlledPollAction.CONTINUE)
  else
    (s, [], ControlledPollAction.CONTINUE)

/-- Modelled from the spec: `Subscription::controlledPoll` belongs to the
underlying transport, which is external (spec sections 4.3 and 6).  Given the
pending fragments of the bound subscription and a fragment budget, it
presents fragments to the handler in order, up to the budget: `CONTINUE`
consumes the fragment and proceeds; `BREAK` and `COMMIT` consume it and stop
the call; `ABORT` stops the call with the fragment not consumed, leaving it
for redelivery.  Returns the handler's final state, the consumer invocations
made, the number of fragments consumed, and the fragments left pending. -/
def controlledPoll :
    RecordingSubscriptionDescriptorPoller →
      List RecordingSubscriptionDescriptor → Nat →
      RecordingSubscriptionDescriptorPoller × List ConsumerInvocation ×
        Nat × List RecordingSubscriptionDescriptor
  | s, fs, 0 => (s, [], 0, fs)
  | s, [], _ => (s, [], 0, [])
  | s, f :: rest, Nat.succ n =>
    let step := onFragment s f
    match step.2.2 with
    | ControlledPollAction.ABORT => (s, [], 0, f :: rest)
    | ControlledPollAction.BREAK => (step.1, step.2.1, 1, rest)
    | ControlledPollAction.COMMIT => (step.1, step.2.1, 1, rest)
    | ControlledPollAction.CONTINUE =>
      let next := controlledPoll step.1 rest n
      (next.1, step.2.1 ++ next.2.1, 1 + next.2.2.1, next.2.2.2)

/-- `RecordingSubscriptionDescriptorPoller::poll` (header, lines 43-48):
clears `m_isDispatchComplete` at entry, then delegates to the subscription's
`controlledPoll` with `m_fragmentLimit`.  The pending fragments of the bound
subscription are passed explicitly. -/
def poll (s : RecordingSubscriptionDescriptorPoller)
    (fs : List RecordingSubscriptionDescriptor) :
    RecordingSubscriptionDescriptorPoller × List ConsumerInvocation ×
      Nat × List RecordingSubscriptionDescriptor :=
  controlledPoll { s with isDispatchComplete := false } fs s.fragmentLimit

/-- Dispatch of a sequence of fragments through `onFragment`, one after the
other, accumulating the consumer invocations: the fragments actually
dispatched to the handler, abstracting over how they are grouped into poll
calls. -/
def dispatchAll :
    RecordingSubscriptionDescriptorPoller →
      List RecordingSubscriptionDescriptor →
      RecordingSubscriptionDescriptorPoller × List ConsumerInvocation
  | s, [] => (s, [])
  | s, f :: rest =>
    let step := onFragment s f
    let next := dispatchAll step.1 rest
    (next.1, step.2.1 ++ next.2)

/-- One caller-visible operation on the poller: a `poll()` call (with the
fragments then pending on the subscription) or a `reset(...)` call. -/
inductive PollerOp where
  | pollOp (fs : List RecordingSubscriptionDescriptor)
  | resetOp (correlationId : Int) (subscriptionCount : Int) (consumer : Nat)

/-- Apply one caller-visible operation to the poller state. -/
def applyOp (s : RecordingSubscriptionDescriptorPoller) :
    PollerOp → RecordingSubscriptionDescriptorPoller
  | PollerOp.pollOp fs => (poll s fs).1
  | PollerOp.resetOp correlationId subscriptionCount consumer =>
      reset s correlationId subscriptionCount consumer

/-- Apply a sequence of caller-visible operations to the poller state. -/
def runOps (s : RecordingSubscriptionDescriptorPoller)
    (ops : List PollerOp) : RecordingSubscriptionDescriptorPoller :=
  ops.foldl applyOp s

/-- `onFragment` on a fragment whose header pair does not match the bound
pair: consumed with no state change, no invocation, `CONTINUE`. -/
lemma onFragment_not_matches {s : RecordingSubscriptionDescriptorPoller}
    {f : RecordingSubscriptionDescriptor}
    (h : matchesListing s.controlSessionId s.correlationId f = false) :
    onFragment s f = (s, [], ControlledPollAction.CONTINUE) := by
  simp [onFragment, h]

/-- `onFragment` never changes the bound control session id, the fragment
limit, the bound correlation id or the bound consumer. -/
lemma onFragment_frame (s : RecordingSubscriptionDescriptorPoller)
    (f : RecordingSubscriptionDescriptor) :
    (onFragment s f).1.controlSessionId = s.controlSessionId ∧
    (onFragment s f).1.fragmentLimit = s.fragmentLimit ∧
    (onFragment s f).1.correlationId = s.correlationId ∧
    (onFragment s f).1.consumer = s.consumer := by
  unfold onFragment
  split
  · split
    · split <;> simp
    · simp
  · simp

/-- `onFragment` keeps the remaining count nonnegative. -/
lemma onFragment_nonneg (s : RecordingSubscriptionDescriptorPoller)
    (f : RecordingSubscriptionDescriptor)
    (h : 0 ≤ s.remainingSubscriptionCount) :
    0 ≤ (onFragment s f).1.remainingSubscriptionCount := by
  unfold onFragment
  split
  · split
    · split <;> simp <;> omega
    · simpa using h
  · simpa using h

/-- Invariant of dispatching a fragment sequence through `onFragment` when
the matching fragments do not exceed the remaining count: the bound ids are
unchanged, the remaining count drops by exactly the number of matching
fragments, the consumer is invoked once per matching fragment in delivery
order with that fragment's decoded fields, and the completion flag ends true
exactly when it started true or the matching fragments exhaust a positive
remaining count. -/
lemma dispatchAll_spec (csid cid : Int)
    (fs : List RecordingSubscriptionDescriptor) :
    ∀ (s : RecordingSubscriptionDescriptorPoller),
      s.controlSessionId = csid → s.correlationId = cid →
      ((fs.countP (matchesListing csid cid) : Int))
          ≤ s.remainingSubscriptionCount →
      (dispatchAll s fs).1.controlSessionId = csid ∧
      (dispatchAll s fs).1.correlationId = cid ∧
      (dispatchAll s fs).1.remainingSubscriptionCount
          = s.remainingSubscriptionCount
            - (fs.countP (matchesListing csid cid) : Int) ∧
      (dispatchAll s fs).2
          = (fs.filter (matchesListing csid cid)).map consumerArgs ∧
      ((dispatchAll s fs).1.isDispatchComplete = true ↔
        (s.isDispatchComplete = true ∨
          (0 < s.remainingSubscriptionCount ∧
            (fs.countP (matchesListing csid cid) : Int)
              = s.remainingSubscriptionCount))) := by
  induction fs with
  | nil =>
    intro s hcs hcid hle
    refine ⟨hcs, hcid, by simp [dispatchAll], by simp [dispatchAll], ?_⟩
    simp only [dispatchAll, List.countP_nil]
    constructor
    · intro h
      exact Or.inl h
    · rintro (h | ⟨hpos, hz⟩)
      · exact h
      · omega
  | cons f rest ih =>
    intro s hcs hcid hle
    by_cases hm : matchesListing csid cid f
    · have hm' : matchesListing s.controlSessionId s.correlationId f = true := by
        rw [hcs, hcid]; exact hm
      have hcnt : ((f :: rest).countP (matchesListing csid cid) : Int)
          = (rest.countP (matchesListing csid cid) : Int) + 1 := by
        simp [List.countP_cons, hm]
      have hpos : 0 < s.remainingSubscriptionCount := by omega
      by_cases h1 : s.remainingSubscriptionCount - 1 = 0
      · have hof : onFragment s f =
            ({ s with
                remainingSubscriptionCount := s.remainingSubscriptionCount - 1
                isDispatchComplete := true },
              [consumerArgs f], ControlledPollAction.COMMIT) := by
          simp [onFragment, hm', hpos, h1]
        have hrest : (rest.countP (matchesListing csid cid) : Int)
            ≤ s.remainingSubscriptionCount - 1 := by omega
        obtain ⟨ih1, ih2, ih3, ih4, ih5⟩ :=
          ih { s with
                remainingSubscriptionCount := s.remainingSubscriptionCount - 1
                isDispatchComplete := true }
            (by simpa using hcs) (by simpa using hcid) (by simpa using hrest)
        refine ⟨by simpa [dispatchAll, hof] using ih1,
                by simpa [dispatchAll, hof] using ih2, ?_, ?_, ?_⟩
        · have := ih3
          simp only [dispatchAll, hof] at *
          rw [this, hcnt]
          ring
        · simp only [dispatchAll, hof, List.filter_cons, hm]
          rw [ih4]
          simp
        · have hflag : (dispatchAll
              { s with
                  remainingSubscriptionCount := s.remainingSubscriptionCount - 1
                  isDispatchComplete := true } rest).1.isDispatchComplete
                = true :=
            ih5.mpr (Or.inl (by simp))
          simp only [dispatchAll, hof]
          rw [hflag]
          constructor
          · intro _
            refine Or.inr ⟨hpos, ?_⟩
            omega
          · intro _
            rfl
      · have hof : onFragment s f =
            ({ s with
                remainingSubscriptionCount := s.remainingSubscriptionCount - 1 },
              [consumerArgs f], ControlledPollAction.CONTINUE) := by
          simp [onFragment, hm', hpos, h1]
        have hrest : (rest.countP (matchesListing csid cid) : Int)
            ≤ s.remainingSubscriptionCount - 1 := by omega
        obtain ⟨ih1, ih2, ih3, ih4, ih5⟩ :=
          ih { s with
                remainingSubscriptionCount := s.remainingSubscriptionCount - 1 }
            (by simpa using hcs) (by simpa using hcid) (by simpa using hrest)
        refine ⟨by simpa [dispatchAll, hof] using ih1,
                by simpa [dispatchAll, hof] using ih2, ?_, ?_, ?_⟩
        · have := ih3
          simp only [dispatchAll, hof] at *
          rw [this, hcnt]
          ring
        · simp only [dispatchAll, hof, List.filter_cons, hm]
          rw [ih4]
          simp
        · simp only [dispatchAll, hof]
          rw [ih5]
          have hproj1 : ({ s with
              remainingSubscriptionCount := s.remainingSubscriptionCount - 1 } :
              RecordingSubscriptionDescriptorPoller).isDispatchComplete
                = s.isDispatchComplete := rfl
          have hproj2 : ({ s with
              remainingSubscriptionCount := s.remainingSubscriptionCount - 1 } :
              RecordingSubscriptionDescriptorPoller).remainingSubscriptionCount
                = s.remainingSubscriptionCount - 1 := rfl
          rw [hproj1, hproj2, hcnt]
          refine or_congr Iff.rfl ?_
          constructor
          · rintro ⟨ha, hb⟩
            exact ⟨by omega, by omega⟩
          · rintro ⟨ha, hb⟩
            exact ⟨by omega, by omega⟩
    · have hm0 : matchesListing csid cid f = false := by
        simpa using hm
      have hm' : matchesListing s.controlSessionId s.correlationId f = false := by
        rw [hcs, hcid]; exact hm0
      have hof := onFragment_not_matches hm'
      have hcnt : ((f :: rest).countP (matchesListing csid cid) : Int)
          = (rest.countP (matchesListing csid cid) : Int) := by
        simp [List.countP_cons, hm0]
      obtain ⟨ih1, ih2, ih3, ih4, ih5⟩ := ih s hcs hcid (by omega)
      refine ⟨by simpa [dispatchAll, hof] using ih1,
              by simpa [dispatchAll, hof] using ih2, ?_, ?_, ?_⟩
      · simp only [dispatchAll, hof]
        rw [ih3, hcnt]
      · simp only [dispatchAll, hof, List.filter_cons, hm0]
        simpa using ih4
      · simp only [dispatchAll, hof]
        rw [ih5, hcnt]

/-- Dispatching any fragment sequence keeps the remaining count
nonnegative. -/
lemma dispatchAll_nonneg (fs : List RecordingSubscriptionDescriptor) :
    ∀ (s : RecordingSubscriptionDescriptorPoller),
      0 ≤ s.remainingSubscriptionCount →
      0 ≤ (dispatchAll s fs).1.remainingSubscriptionCount := by
  induction fs with
  | nil =>
    intro s h
    simpa [dispatchAll] using h
  | cons f rest ih =>
    intro s h
    simp only [dispatchAll]
    exact ih (onFragment s f).1 (onFragment_nonneg s f h)

/-- The handler's `onFragment` only ever answers `COMMIT` or `CONTINUE`. -/
lemma onFragment_act (s : RecordingSubscriptionDescriptorPoller)
    (f : RecordingSubscriptionDescriptor) :
    (onFragment s f).2.2 = ControlledPollAction.COMMIT ∨
    (onFragment s f).2.2 = ControlledPollAction.CONTINUE := by
  unfold onFragment
  split
  · split
    · split
      · exact Or.inl rfl
      · exact Or.inr rfl
    · exact Or.inr rfl
  · exact Or.inr rfl

/-- Unfolding of `controlledPoll` on a pending fragment when the handler
answers `CONTINUE`. -/
lemma controlledPoll_cons_continue {s : RecordingSubscriptionDescriptorPoller}
    {f : RecordingSubscriptionDescriptor}
    (rest : List RecordingSubscriptionDescriptor) (n : Nat)
    (h : (onFragment s f).2.2 = ControlledPollAction.CONTINUE) :
    controlledPoll s (f :: rest) (Nat.succ n) =
      ((controlledPoll (onFragment s f).1 rest n).1,
        (onFragment s f).2.1 ++ (controlledPoll (onFragment s f).1 rest n).2.1,
        1 + (controlledPoll (onFragment s f).1 rest n).2.2.1,
        (controlledPoll (onFragment s f).1 rest n).2.2.2) := by
  conv_lhs => rw [controlledPoll]
  rw [h]

/-- Unfolding of `controlledPoll` on a pending fragment when the handler
answers `COMMIT`: the fragment is consumed and the call stops. -/
lemma controlledPoll_cons_commit {s : RecordingSubscriptionDescriptorPoller}
    {f : RecordingSubscriptionDescriptor}
    (rest : List RecordingSubscriptionDescriptor) (n : Nat)
    (h : (onFragment s f).2.2 = ControlledPollAction.COMMIT) :
    controlledPoll s (f :: rest) (Nat.succ n) =
      ((onFragment s f).1, (onFragment s f).2.1, 1, rest) := by
  conv_lhs => rw [controlledPoll]
  rw [h]

/-- `controlledPoll` never changes the bound control session id or the
fragment limit. -/
lemma controlledPoll_frame :
    ∀ (limit : Nat) (fs : List RecordingSubscriptionDescriptor)
      (s : RecordingSubscriptionDescriptorPoller),
      (controlledPoll s fs limit).1.controlSessionId = s.controlSessionId ∧
      (controlledPoll s fs limit).1.fragmentLimit = s.fragmentLimit := by
  intro limit
  induction limit with
  | zero =>
    intro fs s
    simp [controlledPoll]
  | succ n ih =>
    intro fs s
    cases fs with
    | nil => simp [controlledPoll]
    | cons f rest =>
      obtain ⟨hcs, hfl, _, _⟩ := onFragment_frame s f
      rcases onFragment_act s f with hact | hact
      · rw [controlledPoll_cons_commit rest n hact]
        exact ⟨hcs, hfl⟩
      · rw [controlledPoll_cons_continue rest n hact]
        obtain ⟨ih1, ih2⟩ := ih rest (onFragment s f).1
        exact ⟨by rw [ih1, hcs], by rw [ih2, hfl]⟩

/-- Fragment accounting of `controlledPoll`: every pending fragment is
either consumed during the call or still pending after it. -/
lemma controlledPoll_count :
    ∀ (limit : Nat) (fs : List RecordingSubscriptionDescriptor)
      (s : RecordingSubscriptionDescriptorPoller),
      (controlledPoll s fs limit).2.2.1
          + (controlledPoll s fs limit).2.2.2.length = fs.length := by
  intro limit
  induction limit with
  | zero =>
    intro fs s
    simp [controlledPoll]
  | succ n ih =>
    intro fs s
    cases fs with
    | nil => simp [controlledPoll]
    | cons f rest =>
      rcases onFragment_act s f with hact | hact
      · rw [controlledPoll_cons_commit rest n hact]
        simp only [List.length_cons]
        omega
      · rw [controlledPoll_cons_continue rest n hact]
        have := ih rest (onFragment s f).1
        simp only [List.length_cons]
        omega

/-- Taking one more than `n` elements of a cons takes the head and `n` of
the tail. -/
lemma take_one_add {α : Type} (a : α) (l : List α) (n : Nat) :
    (a :: l).take (1 + n) = a :: l.take n := by
  rw [Nat.add_comm]
  rfl

/-- Characterization of the completion flag after a `controlledPoll` that
starts with the flag clear: the flag ends true exactly when the fragments
consumed during the call include enough matching items to exhaust a positive
remaining count — that is, exactly when some fragment of the call completes
the listing. -/
lemma controlledPoll_flag_iff (csid cid : Int) :
    ∀ (limit : Nat) (fs : List RecordingSubscriptionDescriptor)
      (s : RecordingSubscriptionDescriptorPoller),
      s.controlSessionId = csid → s.correlationId = cid →
      s.isDispatchComplete = false →
      ((controlledPoll s fs limit).1.isDispatchComplete = true ↔
        (0 < s.remainingSubscriptionCount ∧
          (((fs.take (controlledPoll s fs limit).2.2.1).countP
              (matchesListing csid cid) : Nat) : Int)
            = s.remainingSubscriptionCount)) := by
  intro limit
  induction limit with
  | zero =>
    intro fs s hcs hcid hflag
    simp [controlledPoll, hflag]
    omega
  | succ n ih =>
    intro fs s hcs hcid hflag
    cases fs with
    | nil =>
      simp [controlledPoll, hflag]
      omega
    | cons f rest =>
      by_cases hm : matchesListing csid cid f
      · have hm' : matchesListing s.controlSessionId s.correlationId f = true := by
          rw [hcs, hcid]; exact hm
        by_cases hpos : 0 < s.remainingSubscriptionCount
        · by_cases h1 : s.remainingSubscriptionCount - 1 = 0
          · have hof : onFragment s f =
                ({ s with
                    remainingSubscriptionCount :=
                      s.remainingSubscriptionCount - 1
                    isDispatchComplete := true },
                  [consumerArgs f], ControlledPollAction.COMMIT) := by
              simp [onFragment, hm', hpos, h1]
            rw [controlledPoll_cons_commit rest n (by rw [hof]), hof]
            have htake : ((f :: rest).take 1) = [f] := rfl
            simp only [htake, List.countP_cons, List.countP_nil, hm]
            simp
            omega
          · have hof : onFragment s f =
                ({ s with
                    remainingSubscriptionCount :=
                      s.remainingSubscriptionCount - 1 },
                  [consumerArgs f], ControlledPollAction.CONTINUE) := by
              simp [onFragment, hm', hpos, h1]
            rw [controlledPoll_cons_continue rest n (by rw [hof]), hof]
            have ihs := ih rest
              { s with
                  remainingSubscriptionCount :=
                    s.remainingSubscriptionCount - 1 }
              (by simpa using hcs) (by simpa using hcid) (by simpa using hflag)
            simp only at ihs ⊢
            rw [ihs, take_one_add, List.countP_cons, hm]
            simp only [List.countP_cons]
            push_cast
            constructor
            · rintro ⟨ha, hb⟩
              exact ⟨by omega, by omega⟩
            · rintro ⟨ha, hb⟩
              exact ⟨by omega, by omega⟩
        · have hof : onFragment s f = (s, [], ControlledPollAction.CONTINUE) := by
            simp [onFragment, hm', hpos]
          rw [controlledPoll_cons_continue rest n (by rw [hof]), hof]
          have ihs := ih rest s hcs hcid hflag
          simp only at ihs ⊢
          rw [ihs]
          constructor
          · rintro ⟨ha, _⟩
            exact absurd ha hpos
          · rintro ⟨ha, _⟩
            exact absurd ha hpos
      · have hm0 : matchesListing csid cid f = false := by simpa using hm
        have hm' : matchesListing s.controlSessionId s.correlationId f
            = false := by
          rw [hcs, hcid]; exact hm0
        have hof := onFragment_not_matches hm'
        rw [controlledPoll_cons_continue rest n (by rw [hof]), hof]
        have ihs := ih rest s hcs hcid hflag
        simp only at ihs ⊢
        rw [ihs, take_one_add, List.countP_cons, hm0]
        simp

/-- `controlledPoll` with no pending fragments consumes nothing and changes
nothing. -/
lemma controlledPoll_nil (n : Nat) (s : RecordingSubscriptionDescriptorPoller) :
    controlledPoll s [] n = (s, [], 0, []) := by
  cases n <;> rfl

/-- `runOps` never changes the bound control session id or the fragment
limit: `poll` and `reset` leave both members untouched (they are `const` in
the source). -/
lemma runOps_frame (ops : List PollerOp) :
    ∀ (s : RecordingSubscriptionDescriptorPoller),
      (runOps s ops).controlSessionId = s.controlSessionId ∧
      (runOps s ops).fragmentLimit = s.fragmentLimit := by
  induction ops with
  | nil =>
    intro s
    exact ⟨rfl, rfl⟩
  | cons op rest ih =>
    intro s
    obtain ⟨ih1, ih2⟩ := ih (applyOp s op)
    have hop : (applyOp s op).controlSessionId = s.controlSessionId ∧
        (applyOp s op).fragmentLimit = s.fragmentLimit := by
      cases op with
      | pollOp fs =>
        obtain ⟨h1, h2⟩ := controlledPoll_frame s.fragmentLimit fs
          { s with isDispatchComplete := false }
        exact ⟨h1, h2⟩
      | resetOp cid k t => exact ⟨rfl, rfl⟩
    exact ⟨by rw [runOps, List.foldl_cons, ← runOps, ih1, hop.1],
           by rw [runOps, List.foldl_cons, ← runOps, ih2, hop.2]⟩

/-- Claim C1, counterexample: on a fresh poller, `reset(42, 0, consumer)`
leaves `isDispatchComplete()` returning `false`, not `true` — `reset`
unconditionally clears the flag (header, line 78), even when the expected
count is zero. -/
theorem claim_C1_counterexample :
    ¬(((constructDefault 1).reset 42 0 7).isDispatchComplete = true) := by
  decide

/-- Claim C1, amended: after `reset(correlationId, 0, consumer)`,
`isDispatchComplete()` returns `false` — `reset` unconditionally clears the
flag regardless of the expected count, so a zero-count listing is reported
complete only once a poll dispatches the archive's terminal response. -/
theorem claim_C1_amended (s : RecordingSubscriptionDescriptorPoller)
    (cid : Int) (t : Nat) :
    (s.reset cid 0 t).isDispatchComplete = false := rfl

/-- Claim C2: for a listing bound by `reset` with expected count `K > 0`,
after a fragment sequence containing exactly `K` items matching the bound
correlation has been dispatched through `onFragment`, the remaining count is
0 and `isDispatchComplete()` is true. -/
theorem claim_C2 (s : RecordingSubscriptionDescriptorPoller)
    (cid K : Int) (t : Nat) (fs : List RecordingSubscriptionDescriptor)
    (hK : 0 < K)
    (hcount : ((fs.countP (matchesListing s.controlSessionId cid) : Nat) : Int)
        = K) :
    (dispatchAll (s.reset cid K t) fs).1.remainingSubscriptionCount = 0 ∧
    (dispatchAll (s.reset cid K t) fs).1.isDispatchComplete = true := by
  obtain ⟨_, _, h3, _, h5⟩ :=
    dispatchAll_spec s.controlSessionId cid fs (s.reset cid K t) rfl rfl
      (by simp only [reset]; omega)
  constructor
  · rw [h3]
    simp only [reset]
    omega
  · exact h5.mpr (Or.inr ⟨by simpa only [reset] using hK,
      by simpa only [reset] using hcount⟩)

/-- Claim C2, witness at a concrete input: expected count 2, three pending
fragments of which exactly the first and third match the bound pair. -/
theorem claim_C2_witness :
    (dispatchAll ((constructDefault 100).reset 42 2 7)
        [⟨100, 42, 11, 5, "aeron:ipc"⟩, ⟨100, 99, 12, 5, "aeron:ipc"⟩,
          ⟨100, 42, 13, 6, "aeron:udp"⟩]).1.remainingSubscriptionCount = 0 ∧
    (dispatchAll ((constructDefault 100).reset 42 2 7)
        [⟨100, 42, 11, 5, "aeron:ipc"⟩, ⟨100, 99, 12, 5, "aeron:ipc"⟩,
          ⟨100, 42, 13, 6, "aeron:udp"⟩]).1.isDispatchComplete = true :=
  claim_C2 (constructDefault 100) 42 2 7
    [⟨100, 42, 11, 5, "aeron:ipc"⟩, ⟨100, 99, 12, 5, "aeron:ipc"⟩,
      ⟨100, 42, 13, 6, "aeron:udp"⟩] (by decide) (by decide)

/-- Claim C3: the remaining count of the active listing never becomes
negative — after a `reset` with any nonnegative expected count, dispatching
any fragment sequence through `onFragment` (including one with more matching
items than declared) leaves `remainingSubscriptionCount()` nonnegative. -/
theorem claim_C3 (s : RecordingSubscriptionDescriptorPoller)
    (cid K : Int) (t : Nat) (fs : List RecordingSubscriptionDescriptor)
    (hK : 0 ≤ K) :
    0 ≤ (dispatchAll (s.reset cid K t) fs).1.remainingSubscriptionCount :=
  dispatchAll_nonneg fs (s.reset cid K t) (by simpa only [reset] using hK)

/-- Claim C3, witness at a concrete input: expected count 1 but two matching
fragments dispatched; the second does not drive the count below zero. -/
theorem claim_C3_witness :
    0 ≤ (dispatchAll ((constructDefault 100).reset 42 1 7)
        [⟨100, 42, 11, 5, "aeron:ipc"⟩,
          ⟨100, 42, 13, 6, "aeron:udp"⟩]).1.remainingSubscriptionCount :=
  claim_C3 (constructDefault 100) 42 1 7
    [⟨100, 42, 11, 5, "aeron:ipc"⟩, ⟨100, 42, 13, 6, "aeron:udp"⟩] (by decide)

/-- Claim C4: from any prior state, `reset(correlationId, subscriptionCount,
consumer)` leaves `isDispatchComplete()` false and
`remainingSubscriptionCount()` equal to `subscriptionCount`, and binds the
poller to the new correlation id and consumer. -/
theorem claim_C4 (s : RecordingSubscriptionDescriptorPoller)
    (cid k : Int) (t : Nat) :
    (s.reset cid k t).isDispatchComplete = false ∧
    (s.reset cid k t).remainingSubscriptionCount = k ∧
    (s.reset cid k t).correlationId = cid ∧
    (s.reset cid k t).consumer = some t :=
  ⟨rfl, rfl, rfl, rfl⟩

/-- Claim C5: `poll()` clears the completion flag at entry, before any
fragment is dispatched — if no fragment of the current call completes the
listing (the matching fragments among those consumed during the call do not
exhaust a positive remaining count), `isDispatchComplete()` is false after
`poll()` returns, regardless of the flag's value before the call. -/
theorem claim_C5 (s : RecordingSubscriptionDescriptorPoller)
    (fs : List RecordingSubscriptionDescriptor)
    (h : ¬(0 < s.remainingSubscriptionCount ∧
        (((fs.take (s.poll fs).2.2.1).countP
            (matchesListing s.controlSessionId s.correlationId) : Nat) : Int)
          = s.remainingSubscriptionCount)) :
    (s.poll fs).1.isDispatchComplete = false := by
  have hiff := controlledPoll_flag_iff s.controlSessionId s.correlationId
    s.fragmentLimit fs { s with isDispatchComplete := false } rfl rfl rfl
  have hrem : ({ s with isDispatchComplete := false } :
      RecordingSubscriptionDescriptorPoller).remainingSubscriptionCount
        = s.remainingSubscriptionCount := rfl
  rw [hrem] at hiff
  rw [poll] at h ⊢
  cases hfl : (controlledPoll { s with isDispatchComplete := false } fs
      s.fragmentLimit).1.isDispatchComplete
  · rfl
  · exact absurd (hiff.mp hfl) h

/-- Claim C5, witness at a concrete input: the flag is stale-`true` before
the call, the remaining count is 1, and the one matching fragment sits third
in the queue behind two foreign fragments while the fragment budget is 2 —
the call consumes only the two foreign fragments, so no fragment of the call
completes the listing and the flag is false after `poll()`. -/
theorem claim_C5_witness :
    (({ construct 100 2 with
          correlationId := 42
          remainingSubscriptionCount := 1
          isDispatchComplete := true }).poll
        [⟨100, 99, 11, 5, "aeron:ipc"⟩, ⟨100, 98, 12, 5, "aeron:ipc"⟩,
          ⟨100, 42, 13, 6, "aeron:udp"⟩]).1.isDispatchComplete = false :=
  claim_C5
    { construct 100 2 with
        correlationId := 42
        remainingSubscriptionCount := 1
        isDispatchComplete := true }
    [⟨100, 99, 11, 5, "aeron:ipc"⟩, ⟨100, 98, 12, 5, "aeron:ipc"⟩,
      ⟨100, 42, 13, 6, "aeron:udp"⟩] (by decide)

/-- Claim C6: a fragment whose `controlSessionId` differs from the poller's
bound control session, or whose `correlationId` is not the currently bound
one, is consumed — it counts toward the poll result — but triggers no
consumer invocation and leaves the poller state (in particular
`remainingSubscriptionCount()` and `isDispatchComplete()`) unchanged. -/
theorem claim_C6 (s : RecordingSubscriptionDescriptorPoller)
    (f : RecordingSubscriptionDescriptor)
    (hmis : f.controlSessionId ≠ s.controlSessionId ∨
      f.correlationId ≠ s.correlationId)
    (hlim : 0 < s.fragmentLimit) :
    onFragment s f = (s, [], ControlledPollAction.CONTINUE) ∧
    (s.poll [f]).2.2.1 = 1 := by
  have hm : matchesListing s.controlSessionId s.correlationId f = false := by
    rcases hmis with h | h <;> simp [matchesListing, h]
  refine ⟨onFragment_not_matches hm, ?_⟩
  obtain ⟨n, hn⟩ := Nat.exists_eq_succ_of_ne_zero (Nat.pos_iff_ne_zero.mp hlim)
  have hof : onFragment { s with isDispatchComplete := false } f
      = ({ s with isDispatchComplete := false }, [],
          ControlledPollAction.CONTINUE) :=
    onFragment_not_matches hm
  unfold poll
  generalize hgen :
    ({ s with isDispatchComplete := false } :
      RecordingSubscriptionDescriptorPoller) = q at hof ⊢
  rw [hn, controlledPoll_cons_continue [] n (by rw [hof]), controlledPoll_nil]
  simp

/-- Claim C6, witness at a concrete input: a fragment for a foreign
correlation id is consumed (counted) without touching the poller state. -/
theorem claim_C6_witness :
    onFragment ((constructDefault 100).reset 42 3 7) ⟨100, 99, 11, 5, "x"⟩
        = ((constructDefault 100).reset 42 3 7, [],
            ControlledPollAction.CONTINUE) ∧
    (((constructDefault 100).reset 42 3 7).poll
        [⟨100, 99, 11, 5, "x"⟩]).2.2.1 = 1 :=
  claim_C6 ((constructDefault 100).reset 42 3 7) ⟨100, 99, 11, 5, "x"⟩
    (by decide) (by decide)

/-- Claim C7: when a listing bound to a correlation id with declared count
`K` is followed by exactly `K` matching item fragments, in any interleaving
with fragments for other correlations, the consumer is invoked exactly once
per matching item, in delivery order, each invocation receiving that item's
`controlSessionId`, `correlationId`, `subscriptionId`, `streamId` and
`strippedChannel` fields as decoded from the fragment. -/
theorem claim_C7 (s : RecordingSubscriptionDescriptorPoller)
    (cid K : Int) (t : Nat) (fs : List RecordingSubscriptionDescriptor)
    (hcount : ((fs.countP (matchesListing s.controlSessionId cid) : Nat) : Int)
        = K) :
    (dispatchAll (s.reset cid K t) fs).2
      = (fs.filter (matchesListing s.controlSessionId cid)).map
          consumerArgs := by
  obtain ⟨_, _, _, h4, _⟩ :=
    dispatchAll_spec s.controlSessionId cid fs (s.reset cid K t) rfl rfl
      (by simp only [reset]; omega)
  exact h4

/-- Claim C7, witness at a concrete input: two matching items interleaved
with a foreign-correlation item yield exactly the two matching invocations,
in delivery order, with the fragments' decoded fields. -/
theorem claim_C7_witness :
    (dispatchAll ((constructDefault 100).reset 42 2 7)
        [⟨100, 42, 11, 5, "aeron:ipc"⟩, ⟨100, 99, 12, 5, "other"⟩,
          ⟨100, 42, 13, 6, "aeron:udp"⟩]).2
      = [⟨100, 42, 11, 5, "aeron:ipc"⟩, ⟨100, 42, 13, 6, "aeron:udp"⟩] :=
  claim_C7 (constructDefault 100) 42 2 7
    [⟨100, 42, 11, 5, "aeron:ipc"⟩, ⟨100, 99, 12, 5, "other"⟩,
      ⟨100, 42, 13, 6, "aeron:udp"⟩] (by decide)

/-- Claim C8: `poll()` returns the number of fragments actually consumed
during the call — each pending fragment is either consumed and counted or
still pending afterwards — and returns 0 when no fragments are pending on
the bound subscription. -/
theorem claim_C8 (s : RecordingSubscriptionDescriptorPoller)
    (fs : List RecordingSubscriptionDescriptor) :
    (s.poll fs).2.2.1 + (s.poll fs).2.2.2.length = fs.length ∧
    (s.poll []).2.2.1 = 0 := by
  constructor
  · unfold poll
    exact controlledPoll_count s.fragmentLimit fs
      { s with isDispatchComplete := false }
  · unfold poll
    rw [controlledPoll_nil]

/-- Claim C9: the bound control session id and the per-call fragment limit
are fixed at construction — after any sequence of `poll()` and `reset()`
calls, `controlSessionId()` still returns the constructor's value, every
`poll()` still hands the constructor's fragment limit to the underlying
`controlledPoll`, and the defaulted limit is 10. -/
theorem claim_C9 (csid : Int) (limit : Nat) (ops : List PollerOp) :
    (runOps (construct csid limit) ops).controlSessionId = csid ∧
    (runOps (construct csid limit) ops).fragmentLimit = limit ∧
    (∀ fs, (runOps (construct csid limit) ops).poll fs
        = controlledPoll
            { runOps (construct csid limit) ops with isDispatchComplete := false }
            fs limit) ∧
    (constructDefault csid).fragmentLimit = 10 := by
  obtain ⟨h1, h2⟩ := runOps_frame ops (construct csid limit)
  refine ⟨h1, h2, ?_, rfl⟩
  intro fs
  unfold poll
  congr 1

/-- Claim C10: a freshly constructed poller reports `isDispatchComplete()`
false and `remainingSubscriptionCount()` 0, and is bound to the sentinel
correlation id `-1`, so no fragment of a live exchange (whose correlation id
is not `-1`) can trigger a consumer invocation. -/
theorem claim_C10 (csid : Int) (limit : Nat) :
    (construct csid limit).isDispatchComplete = false ∧
    (construct csid limit).remainingSubscriptionCount = 0 ∧
    (construct csid limit).correlationId = -1 ∧
    ∀ f : RecordingSubscriptionDescriptor, f.correlationId ≠ -1 →
      (onFragment (construct csid limit) f).2.1 = [] := by
  refine ⟨rfl, rfl, rfl, ?_⟩
  intro f hf
  have hm : matchesListing (construct csid limit).controlSessionId
      (construct csid limit).correlationId f = false := by
    simp [matchesListing, construct, hf]
  rw [onFragment_not_matches hm]

/-- Claim C10, witness at a concrete input: a fresh poller with a fragment
for a live correlation id invokes no consumer. -/
theorem claim_C10_witness :
    (construct 5 10).isDispatchComplete = false ∧
    (construct 5 10).remainingSubscriptionCount = 0 ∧
    (construct 5 10).correlationId = -1 ∧
    (onFragment (construct 5 10) ⟨5, 3, 9, 1, ""⟩).2.1 = [] := by
  obtain ⟨h1, h2, h3, h4⟩ := claim_C10 5 10
  exact ⟨h1, h2, h3, h4 ⟨5, 3, 9, 1, ""⟩ (by decide)⟩

end RecordingSubscriptionDescriptorPoller

end AeronArchive
